import Mathlib

/-!
Shallow embedding of the spellcaster daemon (src/spellcaster/main.py and
src/spellcaster/util.py) and proofs about it.

Python exceptions are modelled with `Except String`; the filesystem of
state files is a function from path to `Option (Except String Nat)`
(absent / unparseable / parsed `last_success`); wall-clock time is an
explicit `Nat` parameter; threads are sequentialized (launching a run
immediately drives the status to RUNNING, the run outcome is a separate
pure function of the child's exit code and stderr).
-/

namespace Spellcaster

/-- The `SpellStatus` enum of main.py. -/
inductive SpellStatus where
  | standby
  | running
  | warning
  | success
  | error
deriving DecidableEq, Repr, BEq

def SPELL_CONFIG_SUFFIX : String := ".spell.json"

def SPELL_STATE_SUFFIX : String := ".spell_state.json"

/-- Whether `s` ends with `tail` (computed on the character lists). -/
def strEndsWith (s tail : String) : Bool :=
  List.isSuffixOf tail.data s.data

/-- `get_default_spell_state_path` (main.py lines 19-23): suffix substitution,
`None` when the config path does not end with the spell-config suffix. -/
def get_default_spell_state_path (config_path : String) : Option String :=
  if strEndsWith config_path SPELL_CONFIG_SUFFIX then
    some ((config_path.dropRight SPELL_CONFIG_SUFFIX.length) ++ SPELL_STATE_SUFFIX)
  else
    none

/-- Whether a character is Python `str.strip` whitespace (space, tab,
newline, carriage return, vertical tab, form feed). -/
def pySpace (c : Char) : Bool :=
  c.toNat = 32 || c.toNat = 9 || c.toNat = 10 || c.toNat = 13 ||
    c.toNat = 11 || c.toNat = 12

/-- Python `str.strip()`: drop whitespace from both ends. -/
def pyStrip (s : String) : String :=
  String.mk (((s.data.dropWhile pySpace).reverse.dropWhile pySpace).reverse)

/-- Whether `s` starts with `pre` (computed on the character lists). -/
def strStartsWith (s pre : String) : Bool :=
  List.isPrefixOf pre.data s.data

/-- POSIX `os.path.dirname`: everything before the last slash, the empty
string when there is none. -/
def os_path_dirname (p : String) : String :=
  String.mk (((p.data.reverse.dropWhile (fun c => c ≠ '/')).drop 1).reverse)

/-- `os.path.expanduser`: home-directory expansion is environment dependent and
irrelevant to every claim; modelled as the identity on paths without `~`. -/
def os_path_expanduser (p : String) : String := p

/-- `os.path.abspath` on a string argument: already-absolute paths are kept;
relative ones are anchored at the root (the process cwd is irrelevant to the
claims, only that the result is a string, never `None`). -/
def os_path_abspath (p : String) : String :=
  if strStartsWith p "/" then p else "/" ++ p

/-- POSIX `os.path.join` for two components. -/
def os_path_join (a b : String) : String :=
  if strStartsWith b "/" then b
  else if a = "" then b
  else a ++ "/" ++ b

/-- `AutoCommandConfig.UNIT_TO_SECONDS` (main.py lines 47-53). -/
def UNIT_TO_SECONDS (u : String) : Option Nat :=
  if u = "hour" then some 3600
  else if u = "minute" then some 60
  else if u = "second" then some 1
  else if u = "day" then some 86400
  else if u = "week" then some 604800
  else none

/-- JSON object for the `auto_command` field of a spell file; `none` means the
key is absent. -/
structure AutoCommandJson where
  command : Option String := none
  interval : Option Nat := none
  unit : Option String := none
deriving Repr, DecidableEq

/-- The validated `AutoCommandConfig` object. -/
structure AutoCommandConfig where
  command : String
  interval : Nat
  unit : String
  interval_seconds : Nat
deriving Repr, DecidableEq

/-- `AutoCommandConfig.__init__` (main.py lines 55-66): `command` is required,
`interval` defaults to 1, `unit` defaults to `"hour"` and must be a known
unit; `interval_seconds` is the product. -/
def AutoCommandConfig.make (config : AutoCommandJson) : Except String AutoCommandConfig := do
  let command ← match config.command with
    | none => Except.error "No command specified for auto command"
    | some c => Except.ok c
  let interval := config.interval.getD 1
  let unit := config.unit.getD "hour"
  match UNIT_TO_SECONDS unit with
  | none => Except.error ("Invalid unit specified: " ++ unit)
  | some unit_to_seconds =>
      Except.ok { command := command, interval := interval, unit := unit,
                  interval_seconds := interval * unit_to_seconds }

/-- JSON object of a spell definition file; `none` means the key is absent. -/
structure SpellConfigJson where
  name : Option String := none
  command : Option String := none
  state_path : Option String := none
  auto_command : Option AutoCommandJson := none
deriving Repr, DecidableEq

/-- A state file's parsed content (`SpellState`, main.py lines 26-42). -/
structure SpellState where
  path : String
  last_success : Nat
deriving Repr, DecidableEq

/-- The filesystem of state files: `none` = file absent, `some (.error e)` =
file exists but cannot be parsed, `some (.ok n)` = parsed `last_success`. -/
def StateFs : Type := String → Option (Except String Nat)

/-- `SpellConfig.read_state` (main.py lines 99-109): read the state file if
present (a parse failure propagates), default `last_success` to 0 if absent. -/
def read_state (fs : StateFs) (state_path : String) : Except String SpellState :=
  match fs state_path with
  | none => Except.ok { path := state_path, last_success := 0 }
  | some (Except.error e) => Except.error e
  | some (Except.ok n) => Except.ok { path := state_path, last_success := n }

/-- The validated `SpellConfig` object. -/
structure SpellConfig where
  config_path : String
  cwd : String
  name : String
  command : String
  state_path : String
  auto_command : AutoCommandConfig
  spell_state : SpellState
deriving Repr, DecidableEq

/-- `SpellConfig.__init__` (main.py lines 71-97), in source order: `name` is
required, `command` is required; the default argument of
`config.get(state_path, os.path.abspath(get_default_spell_state_path(...)))`
is evaluated eagerly (Python call semantics), so `abspath(None)` raises
TypeError for a non-`.spell.json` path even when `state_path` is supplied;
the `auto_command` sub-object defaults to the empty JSON object; finally the
state file is read. -/
def SpellConfig.make (fs : StateFs) (config_path : String) (config : SpellConfigJson) :
    Except String SpellConfig := do
  let cwd := os_path_dirname config_path
  let name ← match config.name with
    | none => Except.error ("No name specified for spell " ++ config_path)
    | some n => Except.ok n
  let command ← match config.command with
    | none => Except.error ("Spell has no command: " ++ name)
    | some c => Except.ok c
  let defaultStatePath ← match get_default_spell_state_path config_path with
    | none => Except.error "TypeError: abspath expected str, bytes or os.PathLike, not NoneType"
    | some p => Except.ok (os_path_abspath p)
  let state_path0 := config.state_path.getD defaultStatePath
  let state_path := os_path_join cwd (os_path_expanduser state_path0)
  let auto_command ← AutoCommandConfig.make (config.auto_command.getD {})
  let spell_state ← read_state fs state_path
  Except.ok { config_path := config_path, cwd := cwd, name := name, command := command,
              state_path := state_path, auto_command := auto_command,
              spell_state := spell_state }

/-- Whether an `Except` value is a success. -/
def exceptOk {α : Type} (x : Except String α) : Bool :=
  match x with
  | Except.ok _ => true
  | Except.error _ => false

/-- The spell-file contents discovered by one pass: each discovered path
paired with its parse result (`.error` models malformed JSON). Glob
discovery itself is the out-of-scope collaborator. -/
def SpellFiles : Type := List (String × Except String SpellConfigJson)

/-- `CasterConfig.read_file` (main.py lines 124-126): parse the file's JSON and
build the `SpellConfig`; either failure propagates. -/
def CasterConfig.read_file (fs : StateFs) (path : String)
    (content : Except String SpellConfigJson) : Except String SpellConfig := do
  let j ← content
  SpellConfig.make fs path j

/-- `CasterConfig.__init__` (main.py lines 112-126): build every discovered
spell config in order. There is no per-file exception handling, so the first
failing file aborts the whole construction. -/
def CasterConfig.load (fs : StateFs) (files : SpellFiles) :
    Except String (List (String × SpellConfig)) :=
  files.mapM (fun pc => (CasterConfig.read_file fs pc.1 pc.2).map (fun c => (pc.1, c)))

/-- Dictionary lookup in the loaded `spell_configs` mapping. -/
def lookupConfig (cfgs : List (String × SpellConfig)) (id : String) : Option SpellConfig :=
  (cfgs.find? (fun pc => pc.1 = id)).map Prod.snd

/-- The in-memory `Spell` object, reduced to the fields the scheduler reads:
its id (config path), current status, and the schedule data of its current
config (`spell_state.last_success` and `auto_command.interval_seconds`). -/
structure SpellM where
  id : String
  status : SpellStatus
  last_success : Nat
  interval_seconds : Nat
deriving Repr, DecidableEq

/-- `Spell.__init__` (main.py lines 139-145): a fresh spell starts in STANDBY. -/
def Spell.create (id : String) (c : SpellConfig) : SpellM :=
  { id := id, status := SpellStatus.standby,
    last_success := c.spell_state.last_success,
    interval_seconds := c.auto_command.interval_seconds }

/-- `Spell.set_config` (main.py lines 244-245): replace the config (hence the
schedule data the next update reads). -/
def Spell.set_config (s : SpellM) (c : SpellConfig) : SpellM :=
  { s with last_success := c.spell_state.last_success,
           interval_seconds := c.auto_command.interval_seconds }

/-- The launch guard of `Spell.update` (main.py lines 169-175): fire iff not
RUNNING and (forced or `time.time() - last_success >= interval_seconds`).
The time comparison is over the integers, as Python subtraction is. -/
def Spell.updateFires (status : SpellStatus) (last_success interval_seconds now : Nat)
    (force_run : Bool) : Bool :=
  decide (status ≠ SpellStatus.running) &&
    (force_run || decide ((now : Int) - (last_success : Int) ≥ (interval_seconds : Int)))

/-- `Spell.update` on the in-memory spell: when the guard fires, the spawned
sentinel thread drives the status to RUNNING (main.py lines 202-206),
sequentialized here. -/
def Spell.update (s : SpellM) (now : Nat) (force_run : Bool) : SpellM :=
  if Spell.updateFires s.status s.last_success s.interval_seconds now force_run then
    { s with status := SpellStatus.running }
  else
    s

/-- The re-entry guard at the top of `Spell.sentinel` (main.py lines 202-206):
from RUNNING the sentinel returns without spawning; otherwise the status
becomes RUNNING. -/
def Spell.sentinelEntry (status : SpellStatus) : Option SpellStatus :=
  if status = SpellStatus.running then none else some SpellStatus.running

/-- Whether a stderr capture is empty after trimming whitespace
(`stderr.decode('utf-8').strip() != ''`, negated). -/
def stderrTrimEmpty (stderr : Option String) : Bool :=
  match stderr with
  | none => true
  | some e => pyStrip e = ""

/-- The completion segment of `Spell.sentinel` (main.py lines 225-238): from
the child's exit code and captured stderr, the resulting status and the
`last_success` value written to the state file (every branch saves). -/
def Spell.sentinelOutcome (returncode : Int) (stderr : Option String) (now : Nat) :
    SpellStatus × Nat :=
  if returncode = 0 then
    if stderrTrimEmpty stderr then
      (SpellStatus.success, now)
    else
      (SpellStatus.warning, 0)
  else
    (SpellStatus.error, 0)

/-- `Spell.change_status` (main.py lines 160-167): the new status and the
number of `spell_status_changed` observer calls made. -/
def Spell.change_status (current target : SpellStatus) : SpellStatus × Nat :=
  if current = target then (current, 0) else (target, 1)

/-- One reconciliation pass, `Caster.update` (main.py lines 326-357):
reload the registry (a failure is caught by the outer handler, reported once,
and leaves the spell map untouched); then create a STANDBY spell for every
new id; then for every live spell, skip it if RUNNING, delete it if its id is
gone, otherwise push the fresh config and call `update`. Returns the new
spell map and the number of reported errors. -/
def Caster.update (fs : StateFs) (files : SpellFiles) (spells : List SpellM)
    (now : Nat) (force_run : Bool) : List SpellM × Nat :=
  match CasterConfig.load fs files with
  | Except.error _ => (spells, 1)
  | Except.ok cfgs =>
      let withNew := spells ++
        (cfgs.filter (fun pc => spells.all (fun s => s.id ≠ pc.1))).map
          (fun pc => Spell.create pc.1 pc.2)
      let final := withNew.filterMap (fun s =>
        if s.status = SpellStatus.running then some s
        else
          match lookupConfig cfgs s.id with
          | none => none
          | some c => some (Spell.update (Spell.set_config s c) now force_run))
      (final, 0)

/-- Observable actions of `RepeatedTimer` (util.py): arming the next
`threading.Timer` tick versus invoking the wrapped callback. -/
inductive TimerEvent where
  | scheduleNext
  | runCallback
deriving DecidableEq, Repr

/-- The state of a `RepeatedTimer` plus the trace of its observable actions,
in program order. -/
structure TimerState where
  is_waiting : Bool
  trace : List TimerEvent
deriving Repr, DecidableEq

/-- `RepeatedTimer.start` (util.py lines 30-34): arm a new tick only when not
already waiting. -/
def RepeatedTimer.start (s : TimerState) : TimerState :=
  if s.is_waiting then s
  else { is_waiting := true, trace := s.trace ++ [TimerEvent.scheduleNext] }

/-- `RepeatedTimer._run` (util.py lines 25-28), the body a tick executes:
clear `is_waiting`, call `start()` (arming the next tick), and only then call
the wrapped function. -/
def RepeatedTimer.runTick (s : TimerState) : TimerState :=
  let s1 : TimerState := { s with is_waiting := false }
  let s2 := RepeatedTimer.start s1
  { s2 with trace := s2.trace ++ [TimerEvent.runCallback] }

/-- A control line after `json.loads`: either the parse raised, or an object
with its `action`, `spell_id` and `force_run` members (`none` = key absent). -/
inductive ControlLine where
  | malformed
  | parsed (action : Option String) (spell_id : Option String) (force_run : Option Bool)
deriving Repr, DecidableEq

/-- What a successfully dispatched control line did. -/
inductive ActionTaken where
  | cast (id : String)
  | autoCast (id : String)
  | killed (id : String)
  | updated (force_run : Bool)
deriving Repr, DecidableEq

/-- The result of one control line: an exception caught and reported through
`print_error`, or an action carried out. -/
inductive HandleResult where
  | reported (msg : String)
  | acted (a : ActionTaken)
deriving Repr, DecidableEq

def HandleResult.isReported (r : HandleResult) : Bool :=
  match r with
  | HandleResult.reported _ => true
  | HandleResult.acted _ => false

/-- `Caster.rerun_spell` (main.py lines 284-297): unknown id raises; a running
spell raises; otherwise the file is re-read (a parse failure propagates) and
the spell force-updated. -/
def Caster.rerun_spell (fs : StateFs) (files : SpellFiles) (spells : List SpellM)
    (id : String) : Except String ActionTaken := do
  match spells.find? (fun s => s.id = id) with
  | none => Except.error ("ValueError: Spell not found: " ++ id)
  | some s =>
      if s.status = SpellStatus.running then
        Except.error ("RuntimeError: Spell is still running: " ++ id)
      else
        match files.find? (fun pc => pc.1 = id) with
        | none => Except.error ("FileNotFoundError: " ++ id)
        | some pc => do
            let _ ← CasterConfig.read_file fs pc.1 pc.2
            Except.ok (ActionTaken.autoCast id)

/-- `Caster.manual_cast_spell` (main.py lines 299-309): unknown id raises; for
a non-running spell the file is re-read first (failure propagates); then the
interactive terminal is opened, which raises RuntimeError off macOS
(`Spell.run_in_external_terminal`, lines 177-193). -/
def Caster.manual_cast_spell (fs : StateFs) (files : SpellFiles) (spells : List SpellM)
    (isDarwin : Bool) (id : String) : Except String ActionTaken := do
  match spells.find? (fun s => s.id = id) with
  | none => Except.error ("ValueError: Spell not found: " ++ id)
  | some s => do
      if s.status ≠ SpellStatus.running then
        match files.find? (fun pc => pc.1 = id) with
        | none => Except.error ("FileNotFoundError: " ++ id)
        | some pc => do
            let _ ← CasterConfig.read_file fs pc.1 pc.2
            Except.ok ()
      else
        Except.ok ()
      if isDarwin then
        Except.ok (ActionTaken.cast id)
      else
        Except.error "RuntimeError: The operating system is not supported yet"

/-- `Spell.kill` (main.py lines 195-200): with no live child process
(modelled: not RUNNING) it raises RuntimeError. -/
def Spell.kill (s : SpellM) : Except String ActionTaken :=
  if s.status = SpellStatus.running then
    Except.ok (ActionTaken.killed s.id)
  else
    Except.error "RuntimeError: Process is not running"

/-- The dispatch body of `Caster.handle_request` (main.py lines 359-393),
before the catch-all: any raised exception is the `.error` case. Every
action except `update` first reads `spell_id` (KeyError when absent) and
indexes `self.spells` with it (KeyError when unknown). -/
def Caster.handle_request_inner (fs : StateFs) (files : SpellFiles)
    (spells : List SpellM) (isDarwin : Bool) (line : ControlLine) :
    Except String ActionTaken := do
  match line with
  | ControlLine.malformed => Except.error "json.decoder.JSONDecodeError"
  | ControlLine.parsed action spell_id force_run =>
      let act ← match action with
        | none => Except.error "KeyError: action"
        | some a => Except.ok a
      if act = "cast" then
        let id ← match spell_id with
          | none => Except.error "KeyError: spell_id"
          | some i => Except.ok i
        match spells.find? (fun s => s.id = id) with
        | none => Except.error ("KeyError: " ++ id)
        | some _ => Caster.manual_cast_spell fs files spells isDarwin id
      else if act = "auto_cast" then
        let id ← match spell_id with
          | none => Except.error "KeyError: spell_id"
          | some i => Except.ok i
        match spells.find? (fun s => s.id = id) with
        | none => Except.error ("KeyError: " ++ id)
        | some _ => Caster.rerun_spell fs files spells id
      else if act = "kill" then
        let id ← match spell_id with
          | none => Except.error "KeyError: spell_id"
          | some i => Except.ok i
        match spells.find? (fun s => s.id = id) with
        | none => Except.error ("KeyError: " ++ id)
        | some s => Spell.kill s
      else if act = "update" then
        Except.ok (ActionTaken.updated (force_run.getD false))
      else
        Except.error "ValueError: Unknown action"

/-- `Caster.handle_request` (main.py lines 359-393): the catch-all turns every
exception into a reported error; nothing propagates. -/
def Caster.handle_request (fs : StateFs) (files : SpellFiles) (spells : List SpellM)
    (isDarwin : Bool) (line : ControlLine) : HandleResult :=
  match Caster.handle_request_inner fs files spells isDarwin line with
  | Except.error e => HandleResult.reported e
  | Except.ok a => HandleResult.acted a

/-- The control loop of `Caster.start` (main.py lines 395-400): one blocking
read per iteration, each line handed to `handle_request`; since the latter
never raises, every line yields exactly one result and the loop goes on. -/
def Caster.controlLoop (fs : StateFs) (files : SpellFiles) (spells : List SpellM)
    (isDarwin : Bool) (lines : List ControlLine) : List HandleResult :=
  lines.map (Caster.handle_request fs files spells isDarwin)

/-! Concrete fixtures used by witnesses and counterexamples. -/

/-- A filesystem with no state files. -/
def fsEmpty : StateFs := fun _ => none

/-- A minimal valid spell definition. -/
def goodJson : SpellConfigJson :=
  { name := some "g", command := some "c",
    auto_command := some { command := some "c" } }

/-- The `SpellConfig` that `goodJson` at path `a.spell.json` parses to. -/
def cfgA : SpellConfig :=
  { config_path := "a.spell.json", cwd := "", name := "g", command := "c",
    state_path := "/a.spell_state.json",
    auto_command := { command := "c", interval := 1, unit := "hour", interval_seconds := 3600 },
    spell_state := { path := "/a.spell_state.json", last_success := 0 } }

/-- A discovery result with one malformed file and one valid file. -/
def badFiles : SpellFiles :=
  [("bad.spell.json", Except.error "json.decoder.JSONDecodeError"),
   ("g.spell.json", Except.ok goodJson)]

/-- A discovery result with just the valid file `a.spell.json`. -/
def fileA : SpellFiles := [("a.spell.json", Except.ok goodJson)]

/-- A live spell for `a.spell.json` that has finished a run with SUCCESS. -/
def spellFinished : SpellM :=
  { id := "a.spell.json", status := SpellStatus.success,
    last_success := 5, interval_seconds := 1000 }

/-! Helper lemmas. -/

theorem Spell.set_config_id (s : SpellM) (c : SpellConfig) :
    (Spell.set_config s c).id = s.id := rfl

theorem Spell.set_config_status (s : SpellM) (c : SpellConfig) :
    (Spell.set_config s c).status = s.status := rfl

theorem Spell.update_id (s : SpellM) (now : Nat) (force_run : Bool) :
    (Spell.update s now force_run).id = s.id := by
  unfold Spell.update
  split <;> rfl

theorem Spell.update_status (s : SpellM) (now : Nat) (force_run : Bool) :
    (Spell.update s now force_run).status = SpellStatus.running ∨
      (Spell.update s now force_run).status = s.status := by
  unfold Spell.update
  split
  · exact Or.inl rfl
  · exact Or.inr rfl

/-! Claim theorems. -/

/-- C4: when the child process exits, exit code 0 with a stderr stream that is
empty after trimming whitespace yields SUCCESS; exit code 0 with non-empty
trimmed stderr yields WARNING and never SUCCESS; a non-zero exit code yields
ERROR. -/
theorem sentinel_status_mapping (rc : Int) (stderr : Option String) (now : Nat) :
    (rc = 0 → stderrTrimEmpty stderr = true →
      (Spell.sentinelOutcome rc stderr now).1 = SpellStatus.success) ∧
    (rc = 0 → stderrTrimEmpty stderr = false →
      (Spell.sentinelOutcome rc stderr now).1 = SpellStatus.warning ∧
      (Spell.sentinelOutcome rc stderr now).1 ≠ SpellStatus.success) ∧
    (rc ≠ 0 → (Spell.sentinelOutcome rc stderr now).1 = SpellStatus.error) := by
  refine ⟨?_, ?_, ?_⟩
  · intro h0 he
    simp [Spell.sentinelOutcome, h0, he]
  · intro h0 he
    simp [Spell.sentinelOutcome, h0, he]
  · intro h
    simp [Spell.sentinelOutcome, h]

/-- C4 witness at a concrete run: exit 0 with stderr text gives WARNING. -/
theorem sentinel_status_mapping_witness :
    (Spell.sentinelOutcome 0 (some "oops") 7).1 = SpellStatus.warning ∧
    (Spell.sentinelOutcome 0 (some "oops") 7).1 ≠ SpellStatus.success :=
  (sentinel_status_mapping 0 (some "oops") 7).2.1 rfl (by decide)

/-- C3 counterexample: a run that exits 0 with non-empty stderr (outcome
WARNING) persists `last_success = 0`, not the current time 100, so the claim
that SUCCESS or WARNING persist the success timestamp as now is false. -/
theorem sentinel_warning_timestamp_cex :
    Spell.sentinelOutcome 0 (some "oops") 100 = (SpellStatus.warning, 0) ∧
    (0 : Nat) ≠ 100 := by
  constructor
  · decide
  · decide

/-- C3 amended: a SUCCESS outcome persists the success timestamp as now; a
WARNING or ERROR outcome resets the persisted timestamp to 0 (in particular
it is never advanced). -/
theorem sentinel_timestamp_policy (rc : Int) (stderr : Option String) (now : Nat) :
    ((Spell.sentinelOutcome rc stderr now).1 = SpellStatus.success →
      (Spell.sentinelOutcome rc stderr now).2 = now) ∧
    ((Spell.sentinelOutcome rc stderr now).1 = SpellStatus.warning ∨
      (Spell.sentinelOutcome rc stderr now).1 = SpellStatus.error →
      (Spell.sentinelOutcome rc stderr now).2 = 0) := by
  unfold Spell.sentinelOutcome
  split
  · split
    · exact ⟨fun _ => rfl, fun h => by cases h <;> simp_all⟩
    · exact ⟨fun h => by simp_all, fun _ => rfl⟩
  · exact ⟨fun h => by simp_all, fun _ => rfl⟩

/-- C3 amended witness at concrete runs: a clean success persists now = 5, a
failing exit persists 0. -/
theorem sentinel_timestamp_policy_witness :
    (Spell.sentinelOutcome 0 none 5).2 = 5 ∧ (Spell.sentinelOutcome 1 none 5).2 = 0 :=
  ⟨(sentinel_timestamp_policy 0 none 5).1 (by decide),
   (sentinel_timestamp_policy 1 none 5).2 (Or.inr (by decide))⟩

/-- C2 counterexample: the launch guard fires from SUCCESS (with the force
flag set), a status different from STANDBY, so the claim that `update()`
launches only from STANDBY is false. -/
theorem update_fires_from_success_cex :
    Spell.updateFires SpellStatus.success 0 3600 0 true = true ∧
    SpellStatus.success ≠ SpellStatus.standby := by
  constructor
  · decide
  · decide

/-- C2 amended: `update()` launches exactly when the status is not RUNNING and
either the force flag is set or `now - lastSuccess >= intervalSeconds`; from
RUNNING both the update guard and the sentinel re-entry guard refuse, so a
trigger while RUNNING is a silent no-op that never launches a duplicate. -/
theorem update_guard (status : SpellStatus) (ls is now : Nat) (force_run : Bool) :
    (status = SpellStatus.running →
      Spell.updateFires status ls is now force_run = false) ∧
    (status ≠ SpellStatus.running →
      (Spell.updateFires status ls is now force_run = true ↔
        force_run = true ∨ (now : Int) - (ls : Int) ≥ (is : Int))) ∧
    Spell.sentinelEntry SpellStatus.running = none := by
  refine ⟨?_, ?_, rfl⟩
  · intro h
    simp [Spell.updateFires, h]
  · intro h
    simp [Spell.updateFires, h]

/-- C2 amended witness at concrete inputs: no launch from RUNNING even when
forced; from STANDBY a forced trigger launches. -/
theorem update_guard_witness :
    Spell.updateFires SpellStatus.running 0 0 100 true = false ∧
    Spell.updateFires SpellStatus.standby 50 3600 10 true = true :=
  ⟨(update_guard SpellStatus.running 0 0 100 true).1 rfl,
   (update_guard SpellStatus.standby 50 3600 10 true).2.1 (by decide) |>.mpr (Or.inl rfl)⟩

/-- C8: `change_status` is idempotent and notifies exactly once per actual
change: setting the status to its current value makes zero observer calls,
and any actual change makes exactly one. -/
theorem change_status_idempotent (s t : SpellStatus) :
    (s = t → Spell.change_status s t = (s, 0)) ∧
    (s ≠ t → Spell.change_status s t = (t, 1)) := by
  constructor <;> intro h <;> simp [Spell.change_status, h]

/-- C8 witness at concrete statuses: STANDBY to STANDBY notifies zero times,
STANDBY to RUNNING notifies once. -/
theorem change_status_idempotent_witness :
    Spell.change_status SpellStatus.standby SpellStatus.standby = (SpellStatus.standby, 0) ∧
    Spell.change_status SpellStatus.standby SpellStatus.running = (SpellStatus.running, 1) :=
  ⟨(change_status_idempotent SpellStatus.standby SpellStatus.standby).1 rfl,
   (change_status_idempotent SpellStatus.standby SpellStatus.running).2 (by decide)⟩

/-- C7 counterexample: one timer tick entering `_run` emits `scheduleNext`
before `runCallback`, not after, so the claim that the next tick is
rescheduled only after the pass completes is false. -/
theorem timer_order_cex :
    (RepeatedTimer.runTick { is_waiting := true, trace := [] }).trace =
      [TimerEvent.scheduleNext, TimerEvent.runCallback] ∧
    [TimerEvent.scheduleNext, TimerEvent.runCallback] ≠
      [TimerEvent.runCallback, TimerEvent.scheduleNext] := by
  constructor
  · decide
  · decide

/-- C7 amended: every tick of `RepeatedTimer._run` first arms the next tick
and only then invokes the reconciliation callback, so a pass that outlasts
the interval can overlap the next tick rather than delay it. -/
theorem timer_tick_order (s : TimerState) :
    (RepeatedTimer.runTick s).trace =
      s.trace ++ [TimerEvent.scheduleNext, TimerEvent.runCallback] ∧
    (RepeatedTimer.runTick s).is_waiting = true := by
  simp [RepeatedTimer.runTick, RepeatedTimer.start]

/-- C10: for every definition file whose path does not end with
`.spell.json`, constructing its config raises, whatever the file's contents
(in particular even when `state_path` is supplied), because the default
argument `os.path.abspath(get_default_spell_state_path(config_path))` of
`config.get` is evaluated unconditionally and the inner call returns `None`;
hence only `*.spell.json` files can ever load. -/
theorem non_spell_json_never_loads (fs : StateFs) (config_path : String)
    (config : SpellConfigJson)
    (h : strEndsWith config_path SPELL_CONFIG_SUFFIX = false) :
    exceptOk (SpellConfig.make fs config_path config) = false := by
  cases hn : config.name with
  | none => simp [SpellConfig.make, hn, exceptOk, Except.bind, bind]
  | some n =>
    cases hc : config.command with
    | none => simp [SpellConfig.make, hn, hc, exceptOk, Except.bind, bind]
    | some c =>
      simp [SpellConfig.make, hn, hc, get_default_spell_state_path, h, exceptOk,
        Except.bind, bind]

/-- C10 witness at a concrete file: `a.json` with an explicit `state_path`
still fails to load. -/
theorem non_spell_json_never_loads_witness :
    (strEndsWith "a.json" SPELL_CONFIG_SUFFIX = false) ∧
    exceptOk (SpellConfig.make fsEmpty "a.json"
      { goodJson with state_path := some "/s.json" }) = false :=
  ⟨by decide, non_spell_json_never_loads fsEmpty "a.json" _ (by decide)⟩

/-- C5 counterexample: a definition file with only `command` (no `name`, no
`auto_command`) fails to load, contradicting the claimed optionality of
`name` and `auto_command`; and the `unit` default is `"hour"` (3600 seconds),
not `"day"`. -/
theorem spell_defaults_cex :
    exceptOk (SpellConfig.make fsEmpty "a.spell.json"
      { name := none, command := some "c", state_path := none,
        auto_command := none }) = false ∧
    AutoCommandConfig.make { command := some "c" } =
      Except.ok { command := "c", interval := 1, unit := "hour",
                  interval_seconds := 3600 } ∧
    ("hour" : String) ≠ "day" := by
  refine ⟨by decide, rfl, by decide⟩

/-- C5 amended: `name` is required (loading fails without it), `auto_command`
and its `command` are required (loading fails when either is absent), and
when `auto_command` has a command, `interval` defaults to 1 and `unit`
defaults to `"hour"` (so `interval_seconds` defaults to 3600). -/
theorem spell_defaults (fs : StateFs) (p : String) (config : SpellConfigJson) :
    (config.name = none → exceptOk (SpellConfig.make fs p config) = false) ∧
    (config.auto_command = none → exceptOk (SpellConfig.make fs p config) = false) ∧
    (∀ j : AutoCommandJson, j.command = none →
      exceptOk (AutoCommandConfig.make j) = false) ∧
    (∀ c : String, AutoCommandConfig.make { command := some c } =
      Except.ok { command := c, interval := 1, unit := "hour",
                  interval_seconds := 3600 }) := by
  refine ⟨?_, ?_, ?_, ?_⟩
  · intro h
    simp [SpellConfig.make, h, exceptOk, Except.bind, bind]
  · intro h
    cases hn : config.name with
    | none => simp [SpellConfig.make, hn, exceptOk, Except.bind, bind]
    | some n =>
      cases hc : config.command with
      | none => simp [SpellConfig.make, hn, hc, exceptOk, Except.bind, bind]
      | some c =>
        cases hend : strEndsWith p SPELL_CONFIG_SUFFIX with
        | false =>
          simp [SpellConfig.make, hn, hc, get_default_spell_state_path, hend,
            exceptOk, Except.bind, bind]
        | true =>
          simp [SpellConfig.make, hn, hc, h, get_default_spell_state_path, hend,
            AutoCommandConfig.make, exceptOk, Except.bind, bind]
  · intro j hj
    cases j
    simp_all [AutoCommandConfig.make, exceptOk, Except.bind, bind]
  · intro c
    simp [AutoCommandConfig.make, UNIT_TO_SECONDS, Except.bind, bind]

/-- C5 amended witness at concrete inputs: a file with only `command` fails to
load; an `auto_command` with only its command gets interval 1 and unit
`"hour"`. -/
theorem spell_defaults_witness :
    exceptOk (SpellConfig.make fsEmpty "b.spell.json" { command := some "c" }) = false ∧
    AutoCommandConfig.make { command := some "cmd" } =
      Except.ok { command := "cmd", interval := 1, unit := "hour",
                  interval_seconds := 3600 } :=
  ⟨(spell_defaults fsEmpty "b.spell.json" { command := some "c" }).1 rfl,
   (spell_defaults fsEmpty "b.spell.json" { command := some "c" }).2.2.2 "cmd"⟩

/-- C1 counterexample: a reconciliation pass over one malformed definition and
one valid one yields zero live tasks (not one) alongside the single reported
error, because the registry rebuild has no per-file isolation and the first
parse failure aborts it. -/
theorem reconciliation_isolation_cex :
    (Caster.update fsEmpty badFiles [] 0 false).1.length = 0 ∧
    (Caster.update fsEmpty badFiles [] 0 false).2 = 1 ∧
    (0 : Nat) ≠ 1 := by
  refine ⟨by decide, by decide, by decide⟩

/-- C1 amended: a malformed definition aborts the whole registry reload: the
reconciliation pass catches the failure at the top level, reports exactly one
error, and leaves the live task map unchanged, so none of the valid
definitions discovered in that pass produce tasks. -/
theorem load_failure_aborts_pass (fs : StateFs) (files : SpellFiles)
    (spells : List SpellM) (now : Nat) (force_run : Bool)
    (h : exceptOk (CasterConfig.load fs files) = false) :
    Caster.update fs files spells now force_run = (spells, 1) := by
  unfold Caster.update
  cases hl : CasterConfig.load fs files with
  | error e => rfl
  | ok cfgs =>
      rw [hl] at h
      simp [exceptOk] at h

/-- C1 amended witness at a concrete registry: one malformed plus one valid
file leave an existing live task map untouched and report one error. -/
theorem load_failure_aborts_pass_witness :
    Caster.update fsEmpty badFiles [spellFinished] 3 true = ([spellFinished], 1) :=
  load_failure_aborts_pass fsEmpty badFiles [spellFinished] 3 true (by decide)

/-- C6 counterexample: a live task for `a.spell.json` in SUCCESS whose id is
still in the reloaded registry stays in the live map with status SUCCESS
(hot-swapped config, not launched); no fresh STANDBY task replaces it. -/
theorem finished_sweep_cex :
    (Caster.update fsEmpty fileA [spellFinished] 10 false).1 =
      [{ id := "a.spell.json", status := SpellStatus.success, last_success := 0,
         interval_seconds := 3600 }] ∧
    SpellStatus.success ≠ SpellStatus.standby := by
  refine ⟨by decide, by decide⟩

/-- C6 amended: a reconciliation pass never removes a live task in a
terminal-per-run status whose id is still present: the existing task object
is kept, the freshly loaded definition is pushed into it, `update` is called
on it, and its status afterwards is RUNNING or its old terminal status, never
a fresh STANDBY. -/
theorem finished_spells_retained (fs : StateFs) (files : SpellFiles)
    (spells : List SpellM) (now : Nat) (force_run : Bool) (s : SpellM)
    (cfgs : List (String × SpellConfig)) (c : SpellConfig)
    (hload : CasterConfig.load fs files = Except.ok cfgs)
    (hs : s ∈ spells)
    (hterm : s.status = SpellStatus.success ∨ s.status = SpellStatus.warning)
    (hc : lookupConfig cfgs s.id = some c) :
    Spell.update (Spell.set_config s c) now force_run ∈
      (Caster.update fs files spells now force_run).1 ∧
    (Spell.update (Spell.set_config s c) now force_run).id = s.id ∧
    (Spell.update (Spell.set_config s c) now force_run).status ≠ SpellStatus.standby := by
  have hnotrun : ¬ s.status = SpellStatus.running := by
    rcases hterm with h | h <;> simp [h]
  have hid : (Spell.update (Spell.set_config s c) now force_run).id = s.id := by
    rw [Spell.update_id, Spell.set_config_id]
  have hst : (Spell.update (Spell.set_config s c) now force_run).status ≠ SpellStatus.standby := by
    rcases Spell.update_status (Spell.set_config s c) now force_run with h | h
    · rw [h]
      simp
    · rw [h, Spell.set_config_status]
      rcases hterm with h2 | h2 <;> simp [h2]
  refine ⟨?_, hid, hst⟩
  simp only [Caster.update, hload]
  apply List.mem_filterMap.mpr
  refine ⟨s, List.mem_append_left _ hs, ?_⟩
  simp [hnotrun, hc]

/-- C6 amended witness at the concrete registry `fileA`: the finished task is
retained (with the fresh config pushed in) rather than recreated in STANDBY. -/
theorem finished_spells_retained_witness :
    Spell.update (Spell.set_config spellFinished cfgA) 10 false ∈
      (Caster.update fsEmpty fileA [spellFinished] 10 false).1 ∧
    (Spell.update (Spell.set_config spellFinished cfgA) 10 false).id = spellFinished.id ∧
    (Spell.update (Spell.set_config spellFinished cfgA) 10 false).status ≠ SpellStatus.standby :=
  finished_spells_retained fsEmpty fileA [spellFinished] 10 false spellFinished
    [("a.spell.json", cfgA)] cfgA rfl (by decide) (Or.inl rfl) (by decide)

/-- C9: every control line that is malformed, names an unknown action, or
refers to an unknown task id is turned into a reported error by the catch-all
in `handle_request` (never a propagated exception), and the control loop
yields exactly one result per input line regardless. -/
theorem handle_request_isolated (fs : StateFs) (files : SpellFiles)
    (spells : List SpellM) (isDarwin : Bool) :
    (Caster.handle_request fs files spells isDarwin ControlLine.malformed).isReported = true ∧
    (∀ a sid fr, a ≠ "cast" → a ≠ "auto_cast" → a ≠ "kill" → a ≠ "update" →
      (Caster.handle_request fs files spells isDarwin
        (ControlLine.parsed (some a) sid fr)).isReported = true) ∧
    (∀ act id, (act = "cast" ∨ act = "auto_cast" ∨ act = "kill") →
      spells.find? (fun s => s.id = id) = none →
      (Caster.handle_request fs files spells isDarwin
        (ControlLine.parsed (some act) (some id) none)).isReported = true) ∧
    (∀ lines, (Caster.controlLoop fs files spells isDarwin lines).length = lines.length) := by
  refine ⟨rfl, ?_, ?_, ?_⟩
  · intro a sid fr h1 h2 h3 h4
    simp [Caster.handle_request, Caster.handle_request_inner, h1, h2, h3, h4,
      HandleResult.isReported, Except.bind, bind]
  · intro act id hact hfind
    rcases hact with h | h | h <;>
      subst h <;>
      simp [Caster.handle_request, Caster.handle_request_inner, hfind,
        HandleResult.isReported, Except.bind, bind]
  · intro lines
    simp [Caster.controlLoop]

/-- C9 witness at concrete control lines: a malformed line, an unknown action
and a kill of a missing id are each reported, not propagated. -/
theorem handle_request_isolated_witness :
    (Caster.handle_request fsEmpty [] [] true ControlLine.malformed).isReported = true ∧
    (Caster.handle_request fsEmpty [] [] true
      (ControlLine.parsed (some "dance") none none)).isReported = true ∧
    (Caster.handle_request fsEmpty [] [] true
      (ControlLine.parsed (some "kill") (some "missing-id") none)).isReported = true :=
  ⟨(handle_request_isolated fsEmpty [] [] true).1,
   (handle_request_isolated fsEmpty [] [] true).2.1 "dance" none none
     (by decide) (by decide) (by decide) (by decide),
   (handle_request_isolated fsEmpty [] [] true).2.2.1 "kill" "missing-id"
     (Or.inr (Or.inr rfl)) rfl⟩

end Spellcaster
